import Mathlib

/-!
Shallow embedding of the SSH communicator (`communicator/ssh/communicator.go`).

The Go code drives two effectful protocols over an SSH client:
`Start` (run a remote command, track its exit asynchronously),
`Upload` (send one file via the SCP sink-mode sub-protocol) and
`Download` (unimplemented, panics).

The embedding makes every external interaction's outcome an explicit input
(an `Option GoError` for each fallible call on the session, plus the result
of `session.Wait()`), and records the observable effects of a call — the
session lifecycle, the pty request, the command string passed to
`session.Start`, the bytes written to the stdin pipe, the number of times
the pipe and the session are closed, and the write trace of the background
goroutine on the `RemoteCmd` fields — in an explicit result structure.
Path handling reproduces Go's `path/filepath` functions `Clean`, `Dir` and
`Base` for the Unix separator.
-/

namespace Packer

/-- Errors surfaced by the Go SSH library: either a generic error value or
the typed `*ssh.ExitError` carrying a remote exit status (the only kind the
code inspects, via a type assertion). -/
inductive GoError
  | msg (s : String)
  | exitError (code : Nat)
deriving DecidableEq, Repr

/-- The byte sequence of an ASCII/UTF-8 string, as written on the wire. -/
def strBytes (s : String) : List Nat := s.data.map Char.toNat

/-! ### Go `path/filepath` (Unix separator)

`filepath.Dir` and `filepath.Base` are used by `Upload` to split the remote
path into the sink-mode target directory and the control-line filename.
`Dir` calls `Clean`, so `Clean` is embedded in full. -/

/-- The backtracking scan of Go's `Clean` when it meets `..`: starting just
below the end of the output buffer, step left while above the `dotdot`
fence and not on a separator; returns the new buffer length. -/
def bkGo (out : List Char) (dotdot : Nat) : Nat → Nat
  | 0 => 0
  | w + 1 =>
    if dotdot < w + 1 ∧ out.get? (w + 1) ≠ some '/' then bkGo out dotdot w
    else w + 1

/-- Drop the last path element (and its preceding separator) from the
output buffer, never dropping below the `dotdot` fence: Go's
`out.w--; for out.w > dotdot && out.index(out.w) != '/' { out.w-- }`. -/
def backtrack (out : List Char) (dotdot : Nat) : List Char :=
  out.take (bkGo out dotdot (out.length - 1))

/-- The main loop of Go's `filepath.Clean`: consume the remaining input,
appending cleaned elements to the output buffer `out`; `dotdot` fences how
far `..` may backtrack. Every step consumes at least one input character,
so a fuel of the input length makes the recursion total without changing
the computed value; the recursion is structural on the fuel. -/
def cleanLoop (rooted : Bool) : Nat → List Char → List Char → Nat → List Char
  | 0, _, out, _ => out
  | _ + 1, [], out, _ => out
  | fuel + 1, c :: rest, out, dotdot =>
    if c = '/' then
      cleanLoop rooted fuel rest out dotdot
    else if c = '.' ∧ (rest.head? = none ∨ rest.head? = some '/') then
      cleanLoop rooted fuel rest out dotdot
    else if c = '.' ∧ rest.head? = some '.' ∧
        (rest.tail.head? = none ∨ rest.tail.head? = some '/') then
      if dotdot < out.length then
        cleanLoop rooted fuel rest.tail (backtrack out dotdot) dotdot
      else if rooted = false then
        let out2 := out ++ (if 0 < out.length then ['/'] else []) ++ ['.', '.']
        cleanLoop rooted fuel rest.tail out2 out2.length
      else
        cleanLoop rooted fuel rest.tail out dotdot
    else
      let out2 := out ++
        (if (rooted ∧ out.length ≠ 1) ∨ (rooted = false ∧ out.length ≠ 0)
          then ['/'] else []) ++
        (c :: rest.takeWhile (fun x => x ≠ '/'))
      cleanLoop rooted fuel (rest.dropWhile (fun x => x ≠ '/')) out2 dotdot

/-- Go's `filepath.Clean` on the Unix separator: shortest lexically
equivalent path (removes `.`, empty and resolvable `..` elements). -/
def Clean (path : String) : String :=
  if path = "" then "."
  else
    let chars := path.data
    let out :=
      if chars.head? = some '/' then cleanLoop true chars.length chars ['/'] 1
      else cleanLoop false chars.length chars [] 0
    if out.length = 0 then "." else String.mk out

/-- Go's `filepath.Dir`: everything up to and including the final
separator, cleaned (`"."` when the path holds no separator). -/
def Dir (path : String) : String :=
  Clean (String.mk ((path.data.reverse.dropWhile (fun x => x ≠ '/')).reverse))

/-- Go's `filepath.Base`: strip trailing separators, then keep the part
after the last separator; `"."` for the empty path, `"/"` for all-slash
paths. -/
def Base (path : String) : String :=
  if path = "" then "."
  else
    let stripped := (path.data.reverse.dropWhile (fun x => x = '/')).reverse
    let lastPart := (stripped.reverse.takeWhile (fun x => x ≠ '/')).reverse
    if lastPart.isEmpty then "/" else String.mk lastPart

/-! ### `Start`: run a remote command

`Start(cmd *packer.RemoteCmd) error` creates a session, binds the command's
streams, requests a pty, starts `cmd.Command + "\n"`, and spawns a
goroutine that waits for the session, writes `cmd.ExitStatus` and
`cmd.Exited`, and closes the session. -/

/-- The pty mode map passed to `session.RequestPty`:
`ssh.ECHO: 0, ssh.TTY_OP_ISPEED: 14400, ssh.TTY_OP_OSPEED: 14400`. -/
structure TerminalModes where
  echo : Nat
  ttyOpIspeed : Nat
  ttyOpOspeed : Nat
deriving DecidableEq, Repr

/-- The arguments of a `session.RequestPty` call. -/
structure PtyRequest where
  term : String
  width : Nat
  height : Nat
  modes : TerminalModes
deriving DecidableEq, Repr

/-- One assignment performed by the background goroutine on the
caller-owned `RemoteCmd` fields. -/
inductive CmdWrite
  | exitStatus (n : Nat)
  | exited (b : Bool)
deriving DecidableEq, Repr

/-- Outcomes of the external session calls made by `Start`: `none` means
the call succeeded. `wait` is what the goroutine's `session.Wait()`
returns. -/
structure StartEnv where
  newSession : Option GoError
  requestPty : Option GoError
  sessionStart : Option GoError
  wait : Option GoError
deriving DecidableEq, Repr

/-- Observable effects of one `Start` call. `startCalledWith` is the
string passed to `session.Start` (when that call is reached); `task` is
the goroutine's write trace on the `RemoteCmd`, present only when the
goroutine was spawned. -/
structure StartResult where
  err : Option GoError
  sessionCreated : Bool
  sessionCloseCount : Nat
  ptyRequested : Option PtyRequest
  startCalledWith : Option String
  task : Option (List CmdWrite)
deriving DecidableEq, Repr

/-- The write trace of the goroutine body: `cmd.ExitStatus = 0`, then
`cmd.ExitStatus = exitErr.ExitStatus()` when the wait error type-asserts
to `*ssh.ExitError`, then `cmd.Exited = true`. -/
def waitTaskWrites : Option GoError → List CmdWrite
  | none => [.exitStatus 0, .exited true]
  | some (.exitError code) => [.exitStatus 0, .exitStatus code, .exited true]
  | some (.msg _) => [.exitStatus 0, .exited true]

/-- The pty request hard-coded in `Start`. -/
def startPtyRequest : PtyRequest :=
  ⟨"xterm", 80, 40, ⟨0, 14400, 14400⟩⟩

/-- `comm.Start`: each early `return err` leaves later effects unperformed;
only the success path spawns the goroutine, whose deferred
`session.Close()` is the sole close of the session. -/
def Start (env : StartEnv) (command : String) : StartResult :=
  match env.newSession with
  | some e => ⟨some e, false, 0, none, none, none⟩
  | none =>
    match env.requestPty with
    | some e => ⟨some e, true, 0, some startPtyRequest, none, none⟩
    | none =>
      match env.sessionStart with
      | some e =>
        ⟨some e, true, 0, some startPtyRequest, some (command ++ "\n"), none⟩
      | none =>
        ⟨none, true, 1, some startPtyRequest, some (command ++ "\n"),
          some (waitTaskWrites env.wait)⟩

/-- Replay a goroutine write trace onto the `(ExitStatus, Exited)` fields
of a zero-initialized `RemoteCmd`. -/
def applyWrites (tr : List CmdWrite) : Nat × Bool :=
  tr.foldl
    (fun st w =>
      match w with
      | .exitStatus n => (n, st.2)
      | .exited b => (st.1, b))
    (0, false)

/-- Count of writes to the `ExitStatus` field in a trace. -/
def countStatusWrites (tr : List CmdWrite) : Nat :=
  tr.countP (fun w => match w with | .exitStatus _ => true | _ => false)

/-- Count of writes to the `Exited` field in a trace. -/
def countExitedWrites (tr : List CmdWrite) : Nat :=
  tr.countP (fun w => match w with | .exited _ => true | _ => false)

/-! ### `Upload`: SCP sink-mode file transfer

`Upload(path string, input io.Reader) error` creates a session (deferring
its close), opens a stdin pipe (deferring a close guarded by `w != nil`),
starts `scp -vt <dir>`, buffers the input, writes the control line, the
payload and a NUL to the pipe (ignoring write errors), closes the pipe and
nils the handle, and returns the error of `session.Wait()`. -/

/-- Outcomes of the external calls made by `Upload`; `none` means success.
The three pipe-write outcomes are listed because the code ignores them:
they never appear in the result. `wait` is the `session.Wait()` error. -/
structure UploadEnv where
  newSession : Option GoError
  stdinPipe : Option GoError
  sessionStart : Option GoError
  copyInput : Option GoError
  writeControl : Option GoError
  writeBody : Option GoError
  writeNul : Option GoError
  wait : Option GoError
deriving DecidableEq, Repr

/-- Observable effects of one `Upload` call. `pipeWrites` lists the byte
chunks handed to the stdin pipe in order; the close counts record how
often `session.Close()` and `w.Close()` ran. -/
structure UploadResult where
  err : Option GoError
  sessionCreated : Bool
  sessionCloseCount : Nat
  pipeOpened : Bool
  pipeCloseCount : Nat
  startCalledWith : Option String
  pipeWrites : List (List Nat)
deriving DecidableEq, Repr

/-- The control line written by
`fmt.Fprintln(w, "C0644", input_memory.Len(), target_file)`: operands
joined by single spaces, newline appended. -/
def controlLine (length : Nat) (file : String) : String :=
  "C0644 " ++ toString length ++ " " ++ file ++ "\n"

/-- `comm.Upload`. The deferred `session.Close()` covers every path after
session creation; the deferred pipe close fires only while `w != nil`,
and the success path closes the pipe explicitly and sets `w = nil`, so
every path after a successful `StdinPipe` closes the pipe exactly once.
`payload` is the byte content accumulated in `input_memory` when
`io.Copy` from the reader succeeds. -/
def Upload (env : UploadEnv) (path : String) (payload : List Nat) :
    UploadResult :=
  match env.newSession with
  | some e => ⟨some e, false, 0, false, 0, none, []⟩
  | none =>
    match env.stdinPipe with
    | some e => ⟨some e, true, 1, false, 0, none, []⟩
    | none =>
      let targetDir := Dir path
      let targetFile := Base path
      match env.sessionStart with
      | some e => ⟨some e, true, 1, true, 1, some ("scp -vt " ++ targetDir), []⟩
      | none =>
        match env.copyInput with
        | some e =>
          ⟨some e, true, 1, true, 1, some ("scp -vt " ++ targetDir), []⟩
        | none =>
          ⟨env.wait, true, 1, true, 1, some ("scp -vt " ++ targetDir),
            [strBytes (controlLine payload.length targetFile), payload, [0]]⟩

/-! ### `Download`: unimplemented -/

/-- Termination behavior of a Go call: a normal return or a panic. -/
inductive GoOutcome (α : Type)
  | ok (val : α)
  | panics (msg : String)
deriving DecidableEq, Repr

/-- `comm.Download`: `panic("not implemented yet")`, whatever the
arguments. The sink argument is kept abstract. -/
def Download {α : Type} (_path : String) (_output : α) :
    GoOutcome (Option GoError) :=
  .panics "not implemented yet"

/-! ### Claims -/

/-- C1: for every payload (empty and NUL-containing ones included) and
every remote path, when session creation, pipe opening, the sink start and
the input buffering succeed, `Upload` writes to the stdin pipe exactly the
control line `"C0644 " ++ <decimal length> ++ " " ++ Base path ++ "\n"`,
then the payload bytes verbatim, then one NUL byte; the declared length is
`payload.length`, the exact number of payload bytes streamed. -/
theorem upload_wire_format (env : UploadEnv) (path : String)
    (payload : List Nat)
    (h1 : env.newSession = none) (h2 : env.stdinPipe = none)
    (h3 : env.sessionStart = none) (h4 : env.copyInput = none) :
    (Upload env path payload).pipeWrites =
      [strBytes (controlLine payload.length (Base path)), payload, [0]] := by
  rcases env with ⟨ns, sp, ss, ci, wc, wb, wn, w⟩
  simp only at h1 h2 h3 h4
  subst h1; subst h2; subst h3; subst h4
  rfl

/-- Witness for C1, the spec's scenario: uploading the bytes of `"hello"`
to `"/home/u/out.txt"` writes the control line `"C0644 5 out.txt\n"`, the
five bytes of `"hello"`, then the NUL terminator. -/
theorem upload_wire_format_witness :
    (Upload ⟨none, none, none, none, none, none, none, none⟩
        "/home/u/out.txt" (strBytes "hello")).pipeWrites =
      [strBytes "C0644 5 out.txt\n", strBytes "hello", [0]] ∧
    strBytes "hello" = [104, 101, 108, 108, 111] := by
  constructor
  · exact (upload_wire_format ⟨none, none, none, none, none, none, none, none⟩
      "/home/u/out.txt" (strBytes "hello") rfl rfl rfl rfl).trans (by decide)
  · decide

/-- C2 counterexample: when the wait of a started command reports the
typed non-zero-exit error (here status 7), the background task's write
trace assigns the exit-status field twice (`0`, then `7`) — not exactly
once as claimed. -/
theorem start_task_double_status_write :
    (Start ⟨none, none, none, some (.exitError 7)⟩ "exit 7").task =
      some [.exitStatus 0, .exitStatus 7, .exited true] ∧
    countStatusWrites [.exitStatus 0, .exitStatus 7, .exited true] = 2 := by
  exact ⟨rfl, by decide⟩

/-- C2 (amended): the background task of a successfully started command
writes the exited flag exactly once and last; the exit-status field is
written once when the wait succeeds or fails with a non-typed error, and
twice (first `0`, then the carried code) when the wait reports a typed
non-zero-exit error — so a caller that reads the fields only after
observing the exited flag true sees a stable exit status. -/
theorem start_task_write_trace (w : Option GoError) (c : String) :
    (Start ⟨none, none, none, w⟩ c).task = some (waitTaskWrites w) ∧
    countExitedWrites (waitTaskWrites w) = 1 ∧
    countStatusWrites (waitTaskWrites w) =
      (match w with | some (.exitError _) => 2 | _ => 1) ∧
    (waitTaskWrites w).getLast? = some (.exited true) := by
  cases w with
  | none => exact ⟨rfl, rfl, rfl, rfl⟩
  | some e =>
    cases e with
    | msg s => exact ⟨rfl, rfl, rfl, rfl⟩
    | exitError code => exact ⟨rfl, rfl, rfl, rfl⟩

/-- C3 counterexample: in `Start`, when session creation succeeds but the
pty negotiation fails, the error is returned with the session left open —
the close count on that exit path is `0`, so not every session is closed
on every exit path. -/
theorem start_pty_failure_leaks_session :
    (Start ⟨none, some (.msg "pty failed"), none, none⟩
        "echo ok").sessionCreated = true ∧
    (Start ⟨none, some (.msg "pty failed"), none, none⟩
        "echo ok").sessionCloseCount = 0 ∧
    (Start ⟨none, some (.msg "pty failed"), none, none⟩ "echo ok").err =
      some (.msg "pty failed") := by
  exact ⟨rfl, rfl, rfl⟩

/-- C3 (amended): every session created by `Upload` is closed exactly once
on every exit path (its close is deferred right after creation); a session
created by `Start` is closed (by the background task) exactly when `Start`
returns no error — on `Start`'s error exit paths after session creation
(pty negotiation or start failure) the session is not closed. -/
theorem session_close_discipline :
    (∀ env path payload, (Upload env path payload).sessionCreated = true →
      (Upload env path payload).sessionCloseCount = 1) ∧
    (∀ env c, (Start env c).err = none →
      (Start env c).sessionCreated = true ∧
      (Start env c).sessionCloseCount = 1) ∧
    (∀ env c, (Start env c).err ≠ none →
      (Start env c).sessionCloseCount = 0) := by
  refine ⟨?_, ?_, ?_⟩
  · rintro ⟨ns, sp, ss, ci, wc, wb, wn, w⟩ path payload h
    cases ns <;> cases sp <;> cases ss <;> cases ci <;> simp_all [Upload]
  · rintro ⟨ns, rp, ss, w⟩ c h
    cases ns <;> cases rp <;> cases ss <;> simp_all [Start]
  · rintro ⟨ns, rp, ss, w⟩ c h
    cases ns <;> cases rp <;> cases ss <;> simp_all [Start]

/-- Witness for C3 (amended): a fully successful `Upload` creates its
session and closes it exactly once. -/
theorem session_close_discipline_witness :
    (Upload ⟨none, none, none, none, none, none, none, none⟩
        "/a/b" []).sessionCloseCount = 1 :=
  session_close_discipline.1 ⟨none, none, none, none, none, none, none, none⟩
    "/a/b" [] rfl

/-- C4: whenever the stdin pipe of `Upload` is successfully opened, the
pipe is closed exactly once — on the success path by the explicit close
(after which `w = nil` disarms the deferred close), and on the error paths
by the deferred close; never zero times, never twice. -/
theorem upload_pipe_closed_once (env : UploadEnv) (path : String)
    (payload : List Nat)
    (h1 : env.newSession = none) (h2 : env.stdinPipe = none) :
    (Upload env path payload).pipeOpened = true ∧
    (Upload env path payload).pipeCloseCount = 1 := by
  rcases env with ⟨ns, sp, ss, ci, wc, wb, wn, w⟩
  simp only at h1 h2
  subst h1; subst h2
  cases ss <;> cases ci <;> exact ⟨rfl, rfl⟩

/-- Witness for C4: concrete run in which the remote `scp` start fails —
the pipe was opened and is still closed exactly once (by the defer). -/
theorem upload_pipe_closed_once_witness :
    (Upload ⟨none, none, some (.msg "scp missing"), none, none, none, none,
        none⟩ "/a/b" [1]).pipeOpened = true ∧
    (Upload ⟨none, none, some (.msg "scp missing"), none, none, none, none,
        none⟩ "/a/b" [1]).pipeCloseCount = 1 :=
  upload_pipe_closed_once ⟨none, none, some (.msg "scp missing"), none, none,
    none, none, none⟩ "/a/b" [1] rfl rfl

/-- C5: replaying the background task's writes on a zero-initialized
command yields exit status `0` when the wait reported no error, the
carried code when it reported a typed non-zero-exit error, and `0` for any
other error, with the exited flag true; the exited flag is written last,
after every exit-status write. Instantiated at a wait result of
`exitError 7` (the spec's `Start("exit 7")` scenario) this gives exit
status 7. -/
theorem start_exit_status_final (w : Option GoError) (c : String) :
    (Start ⟨none, none, none, w⟩ c).task = some (waitTaskWrites w) ∧
    applyWrites (waitTaskWrites w) =
      ((match w with | some (.exitError code) => code | _ => 0), true) ∧
    (waitTaskWrites w).getLast? = some (.exited true) := by
  cases w with
  | none => exact ⟨rfl, rfl, rfl⟩
  | some e =>
    cases e with
    | msg s => exact ⟨rfl, rfl, rfl⟩
    | exitError code => exact ⟨rfl, rfl, rfl⟩

/-- C6: `Download` panics with `"not implemented yet"` for every path and
every sink — it terminates the calling operation unconditionally and never
produces a normal return (not even an error return) that could be
ignored. -/
theorem download_always_panics {α : Type} (path : String) (output : α) :
    Download path output = .panics "not implemented yet" ∧
    ∀ r : Option GoError, Download path output ≠ .ok r := by
  exact ⟨rfl, fun r h => GoOutcome.noConfusion h⟩

/-- Witness for C6 at a concrete path and sink. -/
theorem download_always_panics_witness :
    Download "/tmp/x" (0 : Nat) = .panics "not implemented yet" :=
  (download_always_panics "/tmp/x" (0 : Nat)).1

/-- C7: each setup failure in `Start` (session creation, pty negotiation,
start request) is returned synchronously as exactly that error, with no
background task spawned (so the exited flag and exit status are never
written); and when all setup succeeds, `Start` returns no error whatever
the wait result — failures during remote execution are never returned
from `Start`. -/
theorem start_setup_errors_synchronous (env : StartEnv) (c : String) :
    (∀ e, env.newSession = some e →
      Start env c = ⟨some e, false, 0, none, none, none⟩) ∧
    (∀ e, env.newSession = none → env.requestPty = some e →
      Start env c = ⟨some e, true, 0, some startPtyRequest, none, none⟩) ∧
    (∀ e, env.newSession = none → env.requestPty = none →
        env.sessionStart = some e →
      Start env c =
        ⟨some e, true, 0, some startPtyRequest, some (c ++ "\n"), none⟩) ∧
    (env.newSession = none → env.requestPty = none →
        env.sessionStart = none →
      (Start env c).err = none ∧
      (Start env c).task = some (waitTaskWrites env.wait)) := by
  rcases env with ⟨ns, rp, ss, w⟩
  cases ns <;> cases rp <;> cases ss <;> simp_all [Start]

/-- Witness for C7: a concrete pty-negotiation failure is returned
synchronously and spawns no task. -/
theorem start_setup_errors_synchronous_witness :
    Start ⟨none, some (.msg "no pty"), none, none⟩ "ls" =
      ⟨some (.msg "no pty"), true, 0, some startPtyRequest, none, none⟩ :=
  (start_setup_errors_synchronous ⟨none, some (.msg "no pty"), none, none⟩
    "ls").2.1 (.msg "no pty") rfl rfl

/-- C8: whenever `Start` gets a session, it requests a pty with terminal
type `"xterm"`, width 80, height 40, echo disabled and input/output speed
14400; and when the pty request succeeds, the string handed to the remote
start call is exactly the command text followed by one newline. -/
theorem start_pty_params (env : StartEnv) (c : String)
    (h : env.newSession = none) :
    (Start env c).ptyRequested = some ⟨"xterm", 80, 40, ⟨0, 14400, 14400⟩⟩ ∧
    (env.requestPty = none →
      (Start env c).startCalledWith = some (c ++ "\n")) := by
  rcases env with ⟨ns, rp, ss, w⟩
  simp only at h
  subst h
  cases rp <;> cases ss <;> simp_all [Start, startPtyRequest]

/-- Witness for C8 on a successful concrete run. -/
theorem start_pty_params_witness :
    (Start ⟨none, none, none, none⟩ "echo ok").ptyRequested =
      some ⟨"xterm", 80, 40, ⟨0, 14400, 14400⟩⟩ ∧
    (Start ⟨none, none, none, none⟩ "echo ok").startCalledWith =
      some ("echo ok" ++ "\n") := by
  have h := start_pty_params ⟨none, none, none, none⟩ "echo ok" rfl
  exact ⟨h.1, h.2 rfl⟩

/-- C9: `Upload` starts the remote receiver in sink mode against the
directory portion of the remote path — the command handed to the remote
shell is `"scp -vt " ++ Dir path` — while the filename in the control line
is the final path segment `Base path`. -/
theorem upload_targets_dir_and_base (env : UploadEnv) (path : String)
    (payload : List Nat)
    (h1 : env.newSession = none) (h2 : env.stdinPipe = none) :
    (Upload env path payload).startCalledWith =
      some ("scp -vt " ++ Dir path) ∧
    (env.sessionStart = none → env.copyInput = none →
      (Upload env path payload).pipeWrites.head? =
        some (strBytes (controlLine payload.length (Base path)))) := by
  rcases env with ⟨ns, sp, ss, ci, wc, wb, wn, w⟩
  simp only at h1 h2
  subst h1; subst h2
  cases ss <;> cases ci <;> simp_all [Upload]

/-- Witness for C9: on `"/home/u/out.txt"` the directory portion is
`"/home/u"` and the final segment `"out.txt"`, and the remote receiver is
started with `"scp -vt /home/u"`. -/
theorem upload_targets_dir_and_base_witness :
    Dir "/home/u/out.txt" = "/home/u" ∧
    Base "/home/u/out.txt" = "out.txt" ∧
    (Upload ⟨none, none, none, none, none, none, none, none⟩
        "/home/u/out.txt" (strBytes "hello")).startCalledWith =
      some ("scp -vt " ++ Dir "/home/u/out.txt") := by
  refine ⟨by decide, by decide, ?_⟩
  exact (upload_targets_dir_and_base
    ⟨none, none, none, none, none, none, none, none⟩ "/home/u/out.txt"
    (strBytes "hello") rfl rfl).1

/-- C10: once the receiver is started and the source buffered, the error
returned by `Upload` is exactly the result of waiting on the remote
receiver (`none` on a clean exit, the wait error otherwise); the outcomes
of the three framing writes — control line, body, NUL — are free in the
environment and never influence the result. -/
theorem upload_error_from_wait_only (env : UploadEnv) (path : String)
    (payload : List Nat)
    (h1 : env.newSession = none) (h2 : env.stdinPipe = none)
    (h3 : env.sessionStart = none) (h4 : env.copyInput = none) :
    (Upload env path payload).err = env.wait := by
  rcases env with ⟨ns, sp, ss, ci, wc, wb, wn, w⟩
  simp only at h1 h2 h3 h4
  subst h1; subst h2; subst h3; subst h4
  rfl

/-- Witness for C10: all three framing writes fail with a broken pipe, yet
the returned error is the remote receiver's non-zero exit from the wait. -/
theorem upload_error_from_wait_only_witness :
    (Upload ⟨none, none, none, none, some (.msg "broken pipe"),
        some (.msg "broken pipe"), some (.msg "broken pipe"),
        some (.exitError 1)⟩ "/a/b" [1, 2]).err = some (.exitError 1) :=
  upload_error_from_wait_only ⟨none, none, none, none,
    some (.msg "broken pipe"), some (.msg "broken pipe"),
    some (.msg "broken pipe"), some (.exitError 1)⟩ "/a/b" [1, 2]
    rfl rfl rfl rfl

end Packer

